import Mathlib

/-!
Shallow embedding of the snake game in `src/main.py`.

Pure state is modelled faithfully: `Point`, `Direction`, `Snake`, `Apple`
and `Game` mirror the Python classes; terminal painting (`print` calls,
`canvas`, `render`) has no effect on game state and is omitted.  The one
source of randomness, `randint(1, 40)` inside `Game.spawn_apple`, is
modelled by passing the two draws `rx ry : Int` explicitly to every
operation that may reach `spawn_apple`.  Python's `float` speed is
modelled by `ℚ` (the operations involved are `* 0.9` and `max` with
`0.05`, stated over exact arithmetic).
-/

namespace Snakey

/-- `class Direction(Enum)` from `src/main.py`. -/
inductive Direction : Type where
  | UP
  | DOWN
  | LEFT
  | RIGHT
deriving DecidableEq, Repr

/-- `@dataclass class Point` with integer fields `x`, `y`. -/
structure Point : Type where
  x : Int
  y : Int
deriving DecidableEq, Repr

/-- `Point.__add__`: component-wise addition. -/
def Point.add (a b : Point) : Point :=
  ⟨a.x + b.x, a.y + b.y⟩

/-- `class Snake`: ordered body (index 0 = tail, last = head) and heading. -/
structure Snake : Type where
  body : List Point
  direction : Direction
deriving DecidableEq, Repr

/-- `Snake.DIRECTION_VECTORS`. -/
def Snake.DIRECTION_VECTORS : Direction → Point
  | .UP => ⟨-1, 0⟩
  | .DOWN => ⟨1, 0⟩
  | .LEFT => ⟨0, -1⟩
  | .RIGHT => ⟨0, 1⟩

/-- `Snake.head`: `self.body[-1]` (the Python code raises on an empty body;
we totalise with a default that our theorems never rely on). -/
def Snake.head (s : Snake) : Point :=
  s.body.getLastD ⟨0, 0⟩

/-- `Snake.tail`: `self.body[0]`. -/
def Snake.tail (s : Snake) : Point :=
  s.body.headD ⟨0, 0⟩

/-- `class Apple`: a single mutable position. -/
structure Apple : Type where
  position : Point
deriving DecidableEq, Repr

/-- `class Game`: grid size, speed, score, game-over flag, snake, apple.
The `canvas` field is pure rendering state and is omitted. -/
structure Game : Type where
  height : Int
  width : Int
  speed : ℚ
  score : Nat
  game_over : Bool
  snake : Snake
  apple : Apple

/-- `Game.__init__(w, h)`. -/
def Game.init (w h : Int) : Game where
  height := h
  width := w
  speed := 1/2
  score := 0
  game_over := false
  snake := ⟨[⟨1, 3⟩, ⟨2, 3⟩, ⟨3, 3⟩, ⟨4, 3⟩], .DOWN⟩
  apple := ⟨⟨20, 20⟩⟩

/-- The wall test of `Game.validate_direction` (first `if`). -/
def Game.wall_collision (g : Game) (p : Point) : Prop :=
  p.x ≤ 0 ∨ p.x ≥ g.height - 1 ∨ p.y ≤ 0 ∨ p.y ≥ g.width - 1

instance (g : Game) (p : Point) : Decidable (g.wall_collision p) := by
  unfold Game.wall_collision
  infer_instance

/-- The self-collision test of `Game.validate_direction` (second `if`):
`any(b.x == new_head.x and b.y == new_head.y for b in self.snake.body[:-1])`. -/
def Game.self_collision (g : Game) (p : Point) : Prop :=
  ∃ b ∈ g.snake.body.dropLast, b.x = p.x ∧ b.y = p.y

instance (g : Game) (p : Point) : Decidable (g.self_collision p) := by
  unfold Game.self_collision
  infer_instance

/-- `Game.spawn_apple`, with the two `randint(1, 40)` draws passed in as
`rx`, `ry`.  Only the apple position changes. -/
def Game.spawn_apple (g : Game) (rx ry : Int) : Game :=
  { g with apple := ⟨⟨rx, ry⟩⟩ }

/-- `Game.validate_direction(new_head)`: wall check, then self-collision
check, then the apple-consumption branch. -/
def Game.validate_direction (g : Game) (new_head : Point) (rx ry : Int) : Game :=
  if g.wall_collision new_head then
    { g with game_over := true }
  else if g.self_collision new_head then
    { g with game_over := true }
  else if new_head = g.apple.position then
    let g' := g.spawn_apple rx ry
    { g' with
      snake := { g'.snake with
        body := Point.mk (g'.snake.tail.x + 1) (g'.snake.tail.y + 1) :: g'.snake.body }
      speed := max (1/20 : ℚ) (g'.speed * (9/10))
      score := g'.score + 1 }
  else
    g

/-- The `new_head` computed at the top of `Game.move`:
`head + DIRECTION_VECTORS[new_direction]`, where a missing direction
argument (`None`) falls back to the current heading. -/
def Game.next_head (g : Game) (new_direction : Option Direction) : Point :=
  g.snake.head.add (Snake.DIRECTION_VECTORS (new_direction.getD g.snake.direction))

/-- `Game.move(new_direction)`: validate, append `new_head`, pop the tail
(index 0), update the heading.  The painting `print`s are omitted. -/
def Game.move (g : Game) (new_direction : Option Direction) (rx ry : Int) : Game :=
  let nd := new_direction.getD g.snake.direction
  let new_head := g.next_head new_direction
  let g' := g.validate_direction new_head rx ry
  { g' with snake := { body := (g'.snake.body ++ [new_head]).tail, direction := nd } }

/-- `Game.CONTROLS`: the `wasd` key map. -/
def Game.CONTROLS : Char → Option Direction
  | 'w' => some .UP
  | 's' => some .DOWN
  | 'a' => some .LEFT
  | 'd' => some .RIGHT
  | _ => none

/-- The `opposite_directions` map local to `Game.get_movement`. -/
def opposite_directions : Direction → Direction
  | .UP => .DOWN
  | .DOWN => .UP
  | .LEFT => .RIGHT
  | .RIGHT => .LEFT

/-- `Game.get_movement(key)`: ignore keys outside `wasd`, reject the
opposite of the current heading and the current heading itself,
otherwise move. -/
def Game.get_movement (g : Game) (key : Char) (rx ry : Int) : Game :=
  match Game.CONTROLS key.toLower with
  | none => g
  | some nd =>
    if nd = opposite_directions g.snake.direction then g
    else if nd = g.snake.direction then g
    else g.move (some nd) rx ry

/-- States reachable from some initial game by the two mutating entry
points of the main loop (`move` on the timer, `get_movement` on a key),
over every possible pair of random draws. -/
inductive Reachable : Game → Prop where
  | init : ∀ w h, Reachable (Game.init w h)
  | move : ∀ g nd rx ry, Reachable g → Reachable (g.move nd rx ry)
  | key : ∀ g k rx ry, Reachable g → Reachable (g.get_movement k rx ry)

/-! ### Shared helper lemmas -/

/-- Unfolding `Game.move`: the resulting body is the post-validation body
with `new_head` appended and the front element popped. -/
theorem Game.move_body_eq (g : Game) (nd : Option Direction) (rx ry : Int) :
    (g.move nd rx ry).snake.body =
      ((g.validate_direction (g.next_head nd) rx ry).snake.body ++ [g.next_head nd]).tail :=
  rfl

/-- `Game.move` does not touch the speed beyond what validation did. -/
theorem Game.move_speed_eq (g : Game) (nd : Option Direction) (rx ry : Int) :
    (g.move nd rx ry).speed = (g.validate_direction (g.next_head nd) rx ry).speed :=
  rfl

/-- `Game.move` does not touch the game-over flag beyond what validation did. -/
theorem Game.move_game_over_eq (g : Game) (nd : Option Direction) (rx ry : Int) :
    (g.move nd rx ry).game_over = (g.validate_direction (g.next_head nd) rx ry).game_over :=
  rfl

/-- When `new_head` misses the apple, validation leaves the snake untouched. -/
theorem Game.validate_direction_snake_of_ne (g : Game) (nh : Point) (rx ry : Int)
    (h : nh ≠ g.apple.position) :
    (g.validate_direction nh rx ry).snake = g.snake := by
  unfold Game.validate_direction
  split
  · rfl
  · split
    · rfl
    · rfl

/-- In every branch of validation the speed is bounded below by `1/20` and
does not increase, provided it was at least `1/20` before. -/
theorem Game.validate_direction_speed_le (g : Game) (nh : Point) (rx ry : Int)
    (h : 1/20 ≤ g.speed) :
    1/20 ≤ (g.validate_direction nh rx ry).speed ∧
      (g.validate_direction nh rx ry).speed ≤ g.speed := by
  unfold Game.validate_direction
  split
  · exact ⟨h, le_refl _⟩
  · split
    · exact ⟨h, le_refl _⟩
    · split
      · refine ⟨le_max_left _ _, max_le h ?_⟩
        show g.speed * (9/10) ≤ g.speed
        nlinarith
      · exact ⟨h, le_refl _⟩

/-- Speed bounds propagate through `Game.get_movement`. -/
theorem Game.get_movement_speed_le (g : Game) (k : Char) (rx ry : Int)
    (h : 1/20 ≤ g.speed) :
    1/20 ≤ (g.get_movement k rx ry).speed ∧
      (g.get_movement k rx ry).speed ≤ g.speed := by
  unfold Game.get_movement
  cases Game.CONTROLS k.toLower with
  | none => exact ⟨h, le_refl _⟩
  | some nd =>
    simp only
    split
    · exact ⟨h, le_refl _⟩
    · split
      · exact ⟨h, le_refl _⟩
      · rw [Game.move_speed_eq]
        exact g.validate_direction_speed_le _ rx ry h

/-! ### Claim theorems -/

/-- Claim C2: whenever `new_head.x ≤ 0` or `new_head.x ≥ height - 1` or
`new_head.y ≤ 0` or `new_head.y ≥ width - 1`, `Game.validate_direction`
sets `game_over` and returns with no other state change: no apple
consumption, no score, speed, or body change. -/
theorem validate_direction_wall (g : Game) (nh : Point) (rx ry : Int)
    (h : nh.x ≤ 0 ∨ nh.x ≥ g.height - 1 ∨ nh.y ≤ 0 ∨ nh.y ≥ g.width - 1) :
    g.validate_direction nh rx ry = { g with game_over := true } := by
  unfold Game.validate_direction
  exact if_pos h

/-- Witness for C2: a concrete wall hit at `new_head = (0, 5)`. -/
theorem validate_direction_wall_witness :
    (Game.init 44 44).validate_direction ⟨0, 5⟩ 7 7 =
      { Game.init 44 44 with game_over := true } :=
  validate_direction_wall (Game.init 44 44) ⟨0, 5⟩ 7 7 (Or.inl (by norm_num))

/-- A concrete state whose next auto-move head `(0, 3)` lies in the wall:
three segments heading `UP` with the head at `(1, 3)`. -/
def wallGame : Game where
  height := 44
  width := 44
  speed := 1/2
  score := 0
  game_over := false
  snake := ⟨[⟨3, 3⟩, ⟨2, 3⟩, ⟨1, 3⟩], .UP⟩
  apple := ⟨⟨20, 20⟩⟩

/-- Counterexample to C3 as stated: moving into the wall cell `(0, 3)` does
set `game_over`, but the body is still mutated (the shift happens after
validation), so the body after the call differs from the body before. -/
theorem move_into_wall_mutates_body :
    (wallGame.next_head none).x = 0 ∧
    (wallGame.move none 20 20).game_over = true ∧
    (wallGame.move none 20 20).snake.body ≠ wallGame.snake.body := by
  decide

/-- Claim C3 (amended): when the next head lies in a wall cell, `Game.move`
sets `game_over` to true, but the body is still shifted as in a normal
move: the tail is popped and `new_head` is appended, so for a non-empty
body the result is `body.tail ++ [new_head]`, not the unchanged body. -/
theorem move_into_wall_shifts (g : Game) (nd : Option Direction) (rx ry : Int)
    (hne : g.snake.body ≠ [])
    (h : g.wall_collision (g.next_head nd)) :
    (g.move nd rx ry).game_over = true ∧
    (g.move nd rx ry).snake.body = g.snake.body.tail ++ [g.next_head nd] := by
  have hv : g.validate_direction (g.next_head nd) rx ry = { g with game_over := true } := by
    unfold Game.validate_direction
    exact if_pos h
  constructor
  · rw [Game.move_game_over_eq, hv]
  · rw [Game.move_body_eq, hv]
    exact List.tail_append_singleton_of_ne_nil hne

/-- Witness for C3 (amended), at the concrete state `wallGame`. -/
theorem move_into_wall_shifts_witness :
    (wallGame.move none 20 20).game_over = true ∧
    (wallGame.move none 20 20).snake.body =
      wallGame.snake.body.tail ++ [wallGame.next_head none] :=
  move_into_wall_shifts wallGame none 20 20 (by decide) (Or.inl (by decide))

/-- The initial state with the apple placed directly in the path of the
first auto-move (the next head from `(4, 3)` heading `DOWN` is `(5, 3)`). -/
def appleGame : Game :=
  { Game.init 44 44 with apple := ⟨⟨5, 3⟩⟩ }

/-- Claim C1: a move whose new head misses the apple position preserves the
body length, whatever the collision outcome; a move whose new head hits
the apple with neither wall nor self collision grows the body by
exactly one. -/
theorem move_length (g : Game) (nd : Option Direction) (rx ry : Int)
    (hne : g.snake.body ≠ []) :
    (g.next_head nd ≠ g.apple.position →
      (g.move nd rx ry).snake.body.length = g.snake.body.length) ∧
    (g.next_head nd = g.apple.position →
      ¬ g.wall_collision (g.next_head nd) →
      ¬ g.self_collision (g.next_head nd) →
      (g.move nd rx ry).snake.body.length = g.snake.body.length + 1) := by
  constructor
  · intro h
    rw [Game.move_body_eq, g.validate_direction_snake_of_ne _ rx ry h]
    simp
  · intro ha hw hs
    have hv : (g.validate_direction (g.next_head nd) rx ry).snake.body =
        ⟨g.snake.tail.x + 1, g.snake.tail.y + 1⟩ :: g.snake.body := by
      unfold Game.validate_direction
      rw [if_neg hw, if_neg hs, if_pos ha]
      rfl
    rw [Game.move_body_eq, hv]
    simp

/-- Witness for C1: the first auto-move from the initial state keeps the
length at 4; the same move with the apple at `(5, 3)` grows it to 5. -/
theorem move_length_witness :
    ((Game.init 44 44).move none 20 20).snake.body.length =
      (Game.init 44 44).snake.body.length ∧
    (appleGame.move none 7 7).snake.body.length = appleGame.snake.body.length + 1 :=
  ⟨(move_length (Game.init 44 44) none 20 20 (by decide)).1 (by decide),
   (move_length appleGame none 7 7 (by decide)).2 (by decide) (by decide) (by decide)⟩

/-- Claim C4: once the wall check has passed (and the game was not already
over), validation flags `game_over` exactly when `new_head` coincides in
both coordinates with a body element other than the current head (the
last element), and in the collision case nothing but the flag changes. -/
theorem validate_direction_self_collision (g : Game) (nh : Point) (rx ry : Int)
    (hw : ¬ g.wall_collision nh) (hgo : g.game_over = false) :
    ((g.validate_direction nh rx ry).game_over = true ↔ g.self_collision nh) ∧
    (g.self_collision nh →
      g.validate_direction nh rx ry = { g with game_over := true }) := by
  by_cases hs : g.self_collision nh
  · have hv : g.validate_direction nh rx ry = { g with game_over := true } := by
      unfold Game.validate_direction
      rw [if_neg hw, if_pos hs]
    rw [hv]
    exact ⟨⟨fun _ => hs, fun _ => rfl⟩, fun _ => rfl⟩
  · have hv : (g.validate_direction nh rx ry).game_over = g.game_over := by
      unfold Game.validate_direction
      rw [if_neg hw, if_neg hs]
      split
      · rfl
      · rfl
    rw [hv, hgo]
    exact ⟨⟨fun h => absurd h Bool.false_ne_true, fun h => absurd h hs⟩,
      fun h => absurd h hs⟩

/-- Witness for C4: moving onto the body cell `(3, 3)` of the initial
snake (a non-head segment) flags game over with no other change. -/
theorem validate_direction_self_collision_witness :
    (((Game.init 44 44).validate_direction ⟨3, 3⟩ 7 7).game_over = true ↔
      (Game.init 44 44).self_collision ⟨3, 3⟩) ∧
    ((Game.init 44 44).self_collision ⟨3, 3⟩ →
      (Game.init 44 44).validate_direction ⟨3, 3⟩ 7 7 =
        { Game.init 44 44 with game_over := true }) :=
  validate_direction_self_collision (Game.init 44 44) ⟨3, 3⟩ 7 7 (by decide) rfl

/-- Claim C5: when `new_head` passes both collision checks and equals the
apple position, validation relocates the apple to the random draw,
inserts one growth point into the body, sets the speed to
`max (1/20) (speed * (9/10))` and increments the score by one; the new
apple position differs from the eaten one unless the draw repeats it. -/
theorem validate_direction_apple_consumption (g : Game) (nh : Point) (rx ry : Int)
    (hne : g.snake.body ≠ [])
    (hw : ¬ g.wall_collision nh) (hs : ¬ g.self_collision nh)
    (ha : nh = g.apple.position) :
    (g.validate_direction nh rx ry).apple.position = ⟨rx, ry⟩ ∧
    (g.validate_direction nh rx ry).snake.body =
      ⟨g.snake.tail.x + 1, g.snake.tail.y + 1⟩ :: g.snake.body ∧
    (g.validate_direction nh rx ry).speed = max (1/20 : ℚ) (g.speed * (9/10)) ∧
    (g.validate_direction nh rx ry).score = g.score + 1 ∧
    (Point.mk rx ry ≠ g.apple.position →
      (g.validate_direction nh rx ry).apple.position ≠ g.apple.position) := by
  have hv : g.validate_direction nh rx ry =
      { g with
        apple := ⟨⟨rx, ry⟩⟩
        snake := { g.snake with
          body := ⟨g.snake.tail.x + 1, g.snake.tail.y + 1⟩ :: g.snake.body }
        speed := max (1/20 : ℚ) (g.speed * (9/10))
        score := g.score + 1 } := by
    unfold Game.validate_direction
    rw [if_neg hw, if_neg hs, if_pos ha]
    rfl
  rw [hv]
  exact ⟨rfl, rfl, rfl, rfl, fun h => h⟩

/-- Witness for C5: eating the apple at `(5, 3)` with draw `(7, 9)`. -/
theorem validate_direction_apple_consumption_witness :
    (appleGame.validate_direction ⟨5, 3⟩ 7 9).apple.position = ⟨7, 9⟩ ∧
    (appleGame.validate_direction ⟨5, 3⟩ 7 9).snake.body =
      ⟨appleGame.snake.tail.x + 1, appleGame.snake.tail.y + 1⟩ :: appleGame.snake.body ∧
    (appleGame.validate_direction ⟨5, 3⟩ 7 9).speed =
      max (1/20 : ℚ) (appleGame.speed * (9/10)) ∧
    (appleGame.validate_direction ⟨5, 3⟩ 7 9).score = appleGame.score + 1 ∧
    (Point.mk 7 9 ≠ appleGame.apple.position →
      (appleGame.validate_direction ⟨5, 3⟩ 7 9).apple.position ≠ appleGame.apple.position) :=
  validate_direction_apple_consumption appleGame ⟨5, 3⟩ 7 9
    (by decide) (by decide) (by decide) (by decide)

/-- Claim C6: `opposite_directions` is an involution, a key mapping to the
opposite of the current heading is rejected by `get_movement` (the state,
including the heading, is unchanged), and a key mapping to the current
heading itself is a no-op. -/
theorem opposite_rejection :
    (∀ d, opposite_directions (opposite_directions d) = d) ∧
    (∀ (g : Game) (k : Char) (rx ry : Int),
      Game.CONTROLS k.toLower = some (opposite_directions g.snake.direction) →
      g.get_movement k rx ry = g) ∧
    (∀ (g : Game) (k : Char) (rx ry : Int),
      Game.CONTROLS k.toLower = some g.snake.direction →
      g.get_movement k rx ry = g) := by
  refine ⟨fun d => by cases d <;> rfl, ?_, ?_⟩
  · intro g k rx ry h
    unfold Game.get_movement
    rw [h]
    simp
  · intro g k rx ry h
    unfold Game.get_movement
    rw [h]
    simp only
    split
    · rfl
    · simp

/-- Witness for C6: from the initial heading `DOWN`, pressing `w`
(mapping to `UP`, the opposite) and pressing `s` (mapping to `DOWN`
itself) both leave the state unchanged. -/
theorem opposite_rejection_witness :
    opposite_directions (opposite_directions .UP) = .UP ∧
    (Game.init 44 44).get_movement 'w' 3 3 = Game.init 44 44 ∧
    (Game.init 44 44).get_movement 's' 3 3 = Game.init 44 44 :=
  ⟨opposite_rejection.1 .UP,
   opposite_rejection.2.1 (Game.init 44 44) 'w' 3 3 (by decide),
   opposite_rejection.2.2 (Game.init 44 44) 's' 3 3 (by decide)⟩

/-- Claim C7: for every pair of draws in the support `[1, 40]` of
`randint(1, 40)`, `spawn_apple` sets the apple position to exactly that
pair and changes nothing else — independent of the grid dimensions held
in the state, and with no check against the snake body. -/
theorem spawn_apple_sets_draw (g : Game) (rx ry : Int)
    (h1 : 1 ≤ rx) (h2 : rx ≤ 40) (h3 : 1 ≤ ry) (h4 : ry ≤ 40) :
    g.spawn_apple rx ry = { g with apple := ⟨⟨rx, ry⟩⟩ } :=
  rfl

/-- Witness for C7: draw `(12, 34)` from the initial state. -/
theorem spawn_apple_sets_draw_witness :
    (Game.init 44 44).spawn_apple 12 34 =
      { Game.init 44 44 with apple := ⟨⟨12, 34⟩⟩ } :=
  spawn_apple_sets_draw (Game.init 44 44) 12 34
    (by norm_num) (by norm_num) (by norm_num) (by norm_num)

/-- Claim C8: the growth point inserted at index 0 on apple consumption is
`tail + (1, 1)`, and it is not the point one step from the tail along any
of the four travel directions. -/
theorem growth_point_tail_diag (g : Game) (nh : Point) (rx ry : Int)
    (hne : g.snake.body ≠ [])
    (hw : ¬ g.wall_collision nh) (hs : ¬ g.self_collision nh)
    (ha : nh = g.apple.position) :
    (g.validate_direction nh rx ry).snake.body =
      g.snake.tail.add ⟨1, 1⟩ :: g.snake.body ∧
    (∀ d : Direction, g.snake.tail.add ⟨1, 1⟩ ≠
      g.snake.tail.add (Snake.DIRECTION_VECTORS d)) := by
  constructor
  · unfold Game.validate_direction
    rw [if_neg hw, if_neg hs, if_pos ha]
    rfl
  · intro d
    cases d <;> simp [Point.add, Snake.DIRECTION_VECTORS, Point.mk.injEq]

/-- Witness for C8: the growth point of the `(5, 3)` consumption is the
tail `(1, 3)` plus `(1, 1)`. -/
theorem growth_point_tail_diag_witness :
    (appleGame.validate_direction ⟨5, 3⟩ 7 9).snake.body =
      appleGame.snake.tail.add ⟨1, 1⟩ :: appleGame.snake.body ∧
    (∀ d : Direction, appleGame.snake.tail.add ⟨1, 1⟩ ≠
      appleGame.snake.tail.add (Snake.DIRECTION_VECTORS d)) :=
  growth_point_tail_diag appleGame ⟨5, 3⟩ 7 9
    (by decide) (by decide) (by decide) (by decide)

/-- Claim C9: from the initial state on a 44×44 grid, one auto-move with no
input yields head `(5, 3)`, removes the tail `(1, 3)`, keeps the body
length at 4, and leaves `game_over` false. -/
theorem initial_auto_move_scenario :
    (Game.init 44 44).snake.body = [⟨1, 3⟩, ⟨2, 3⟩, ⟨3, 3⟩, ⟨4, 3⟩] ∧
    (Game.init 44 44).snake.direction = .DOWN ∧
    (Game.init 44 44).apple.position = ⟨20, 20⟩ ∧
    ((Game.init 44 44).move none 20 20).snake.head = ⟨5, 3⟩ ∧
    ((Game.init 44 44).move none 20 20).snake.body =
      [⟨2, 3⟩, ⟨3, 3⟩, ⟨4, 3⟩, ⟨5, 3⟩] ∧
    Point.mk 1 3 ∉ ((Game.init 44 44).move none 20 20).snake.body ∧
    ((Game.init 44 44).move none 20 20).snake.body.length = 4 ∧
    ((Game.init 44 44).move none 20 20).game_over = false := by
  decide

/-- Claim C10: every reachable state has speed between `1/20` and `1/2`;
neither `move` nor `get_movement` ever increases the speed; and each
validation step either leaves the speed unchanged or (on apple
consumption) maps it to `max (1/20) (speed * (9/10))`. -/
theorem speed_invariant :
    (∀ g, Reachable g → 1/20 ≤ g.speed ∧ g.speed ≤ 1/2) ∧
    (∀ (g : Game) (nd : Option Direction) (rx ry : Int),
      1/20 ≤ g.speed → (g.move nd rx ry).speed ≤ g.speed) ∧
    (∀ (g : Game) (k : Char) (rx ry : Int),
      1/20 ≤ g.speed → (g.get_movement k rx ry).speed ≤ g.speed) ∧
    (∀ (g : Game) (nh : Point) (rx ry : Int),
      (g.validate_direction nh rx ry).speed = g.speed ∨
      (g.validate_direction nh rx ry).speed = max (1/20 : ℚ) (g.speed * (9/10))) := by
  have hmove : ∀ (g : Game) (nd : Option Direction) (rx ry : Int),
      1/20 ≤ g.speed →
      1/20 ≤ (g.move nd rx ry).speed ∧ (g.move nd rx ry).speed ≤ g.speed := by
    intro g nd rx ry h
    rw [Game.move_speed_eq]
    exact g.validate_direction_speed_le _ rx ry h
  refine ⟨?_, fun g nd rx ry h => (hmove g nd rx ry h).2,
    fun g k rx ry h => (g.get_movement_speed_le k rx ry h).2, ?_⟩
  · intro g hr
    induction hr with
    | init w ht => constructor <;> norm_num [Game.init]
    | move g nd rx ry hr ih =>
      obtain ⟨h1, h2⟩ := hmove g nd rx ry ih.1
      exact ⟨h1, h2.trans ih.2⟩
    | key g k rx ry hr ih =>
      obtain ⟨h1, h2⟩ := g.get_movement_speed_le k rx ry ih.1
      exact ⟨h1, h2.trans ih.2⟩
  · intro g nh rx ry
    unfold Game.validate_direction
    split
    · exact Or.inl rfl
    · split
      · exact Or.inl rfl
      · split
        · exact Or.inr rfl
        · exact Or.inl rfl

/-- Witness for C10, at the initial state (speed `1/2`). -/
theorem speed_invariant_witness :
    (1/20 ≤ (Game.init 44 44).speed ∧ (Game.init 44 44).speed ≤ 1/2) ∧
    ((Game.init 44 44).move none 3 3).speed ≤ (Game.init 44 44).speed ∧
    ((Game.init 44 44).get_movement 'a' 3 3).speed ≤ (Game.init 44 44).speed :=
  ⟨speed_invariant.1 (Game.init 44 44) (Reachable.init 44 44),
   speed_invariant.2.1 (Game.init 44 44) none 3 3 (by norm_num [Game.init]),
   speed_invariant.2.2.1 (Game.init 44 44) 'a' 3 3 (by norm_num [Game.init])⟩

end Snakey
